import Mathlib

/-!
Verification of the minus80 freezer-monitor escalation pipeline.

Shallow embedding of `src/app/Board.py`, `src/app/Event.py`,
`src/app/FreezerData.py` and the message construction of `src/app/Email.py`.

Modelling conventions:
* A `send_email()` call either returns or raises; each call consumes the next
  element of a `List Bool` of delivery outcomes (`true` = delivered).
* Each fresh `GPIO.input(pin)` read consumes the next element of a list of
  pin levels (0 or 1).
* Loops that are unbounded in the source (`handle_email_error`'s retry loop,
  `monitor`'s outer loop) are run against a finite environment; a `Bool`
  completion flag records whether the loop finished within the supplied
  environment (`false` = the loop is still running, i.e. would consume more
  of the environment than was supplied).
* `datetime.now()` in `check_alert` follows the idealized clock of the spec's
  testable property: each `sleep(sub_interval)` advances the clock by exactly
  the sub-interval and everything else is instantaneous.
-/

namespace Minus80

/-- An email message as constructed by `app/Email.py` (`Email.__init__` /
`set_subject`): the recipient, subject and body that `send_email` would
transmit. Server configuration fields are irrelevant to the claims. -/
structure EmailMsg where
  recipient : String
  subject : String
  body : String
deriving DecidableEq, Repr

/-- One `send_email()` delivery attempt observed during a flow: the message,
whether delivery succeeded, and the failure counter logged for this attempt
(`some n` only for failed attempts inside `handle_email_error`). -/
structure SendAttempt where
  msg : EmailMsg
  ok : Bool
  failureLogged : Option Nat
deriving DecidableEq, Repr

/-- The strftime renderings of an event's `datetime` that `Event.py` embeds in
messages: `%m/%d/%Y`, `%H:%M:%S`, and `%d/%m/%Y %H:%M:%S`. Date formatting
itself is outside the claims, so the rendered strings are carried directly. -/
structure Timestamp where
  mdy : String
  hms : String
  dmyhms : String
deriving DecidableEq, Repr

/-- `Event.__init__`: `self.__status = "ALARM" if event_type else "RECOVERY"`,
where `event_type` is the pin input status (0 or 1, Python truthiness). -/
def eventStatus (event_type : Nat) : String :=
  if event_type ≠ 0 then "ALARM" else "RECOVERY"

/-- The `Event` record: time of the event and derived status string. -/
structure Event where
  event_time : Timestamp
  status : String
deriving DecidableEq, Repr

/-- Modelled from the spec: `app/mail_data.py` (the mail configuration module)
is not in the source tree; the spec's NOTIFY_IT state "attempt[s] delivery to
a fixed IT recipient", so `mail_data["it_email"]` is modelled as a fixed
address (the value the unit tests patch in). -/
def mail_data_it_email : String := "it@test.edu"

/-- `sleep(5)` in `Event.handle_email_error`: the number of seconds slept
before each IT-retry delivery attempt. (The comment above the call, the
method's docstring and the log message emitted by `handle_error` all say
five minutes.) -/
def it_retry_interval : Nat := 5

/-- `Event.handle_email_error`: retry `email.send_email()` forever until one
attempt succeeds, incrementing and logging `failure_count` on each failure.
Arguments: the (fixed) email, the current `failure_count`, and the outcomes
of successive send attempts. Returns the attempt trace, the unconsumed
outcomes, and whether the loop exited. -/
def handle_email_error (msg : EmailMsg) (failure_count : Nat) :
    List Bool → List SendAttempt × List Bool × Bool
  | [] => ([], [], false)
  | r :: rs =>
    if r then ([⟨msg, true, none⟩], rs, true)
    else
      let rest := handle_email_error msg (failure_count + 1) rs
      (⟨msg, false, some (failure_count + 1)⟩ :: rest.1, rest.2.1, rest.2.2)

/-- Body of the IT alert built by `Event.handle_error`. -/
def itBody (ev : Event) (error_message : String) : String :=
  "Minus 80 alarm status: " ++ ev.status ++ ". \nEvent time: "
    ++ ev.event_time.dmyhms ++ "\nError: " ++ error_message
    ++ ".\nCheck syslog for further error details."

/-- `Event.handle_error`: log the error, email the IT team; if that send also
fails, append " AND email IT team" to the error message, set it as the email's
subject, and enter `handle_email_error`. -/
def handle_error (ev : Event) (error_message : String) :
    List Bool → List SendAttempt × List Bool × Bool
  | [] => ([], [], false)
  | r :: rs =>
    let email : EmailMsg :=
      ⟨mail_data_it_email, "!!! -80 ALERT !!! " ++ error_message,
        itBody ev error_message⟩
    if r then ([⟨email, true, none⟩], rs, true)
    else
      let msg2 : EmailMsg :=
        { email with subject := error_message ++ " AND email IT team" }
      let rest := handle_email_error msg2 0 rs
      (⟨email, false, none⟩ :: rest.1, rest.2.1, rest.2.2)

/-- A row of the freezer CSV file, restricted to the columns `Event.py` and
`FreezerData.py` consult: "IP", "Location", "Email". -/
structure CsvRow where
  ip : String
  location : String
  email : String
deriving DecidableEq, Repr

/-- `FreezerData.parse_csv`: scan the CSV rows in order; on the first row
whose "IP" column equals `ip`, set the data attribute to that row and stop
(`break`); if no row matches, the data attribute (`data`) is left unchanged. -/
def FreezerData.parse_csv (ip : String) (data : Option CsvRow) :
    List CsvRow → Option CsvRow
  | [] => data
  | row :: rest =>
    if row.ip = ip then some row else FreezerData.parse_csv ip data rest

/-- The LOOKUP step of `Event.alert`: construct a fresh `FreezerData` (data =
`{}`, modelled `none`) and parse the CSV. `csv = none` models `open` raising
(`FileNotFoundError` is re-raised by `parse_csv`); an empty result after the
parse is also treated as a lookup failure by `Event.alert`. -/
def lookup (csv : Option (List CsvRow)) (ip : String) : Option CsvRow :=
  match csv with
  | none => none
  | some rows => FreezerData.parse_csv ip none rows

/-- Subject built by `Event.notify_recipients` from the event and location. -/
def primarySubject (ev : Event) (location : String) : String :=
  if ev.status = "ALARM" then
    "!!! -80 ALARM !!! Problem detected on " ++ ev.event_time.mdy
      ++ " at " ++ ev.event_time.hms ++ " in " ++ location
  else
    "!!! -80 RECOVERY !!! Recovery detected on " ++ ev.event_time.mdy
      ++ " at " ++ ev.event_time.hms ++ " in " ++ location

/-- Body built by `Event.notify_recipients` from the event and location. -/
def primaryBody (ev : Event) (location : String) : String :=
  if ev.status = "ALARM" then
    "ALARM event detected on " ++ ev.event_time.mdy ++ " at "
      ++ ev.event_time.hms
      ++ ". \nThere is a problem with the -80 in " ++ location ++ "."
  else
    "RECOVERY event detected on " ++ ev.event_time.mdy ++ " at "
      ++ ev.event_time.hms ++ " for minus 80 in " ++ location ++ "."

/-- `Event.notify_recipients`: send the status email to the row's "Email"
recipient; on failure, hand the error to `handle_error` with the message
"!!! -80 ALERT !!! Failure to email <recipient>". -/
def notify_recipients (ev : Event) (row : CsvRow) :
    List Bool → List SendAttempt × List Bool × Bool
  | [] => ([], [], false)
  | r :: rs =>
    let email : EmailMsg :=
      ⟨row.email, primarySubject ev row.location, primaryBody ev row.location⟩
    if r then ([⟨email, true, none⟩], rs, true)
    else
      let rest :=
        handle_error ev ("!!! -80 ALERT !!! Failure to email " ++ row.email) rs
      (⟨email, false, none⟩ :: rest.1, rest.2.1, rest.2.2)

/-- `Event.alert`: parse the CSV; on lookup failure (parse raised, or the
parsed data is empty) call `handle_error` with "Failed to parse CSV file";
on success call `notify_recipients`. -/
def Event.alert (ev : Event) (csv : Option (List CsvRow)) (ip : String)
    (outcomes : List Bool) : List SendAttempt × List Bool × Bool :=
  match lookup csv ip with
  | none => handle_error ev "Failed to parse CSV file" outcomes
  | some row => notify_recipients ev row outcomes

/-- `timedelta(0, 60)` in `Board.check_alert`: the total re-alert window, in
seconds (the commented-out production value is one hour). -/
def realert_total : Nat := 60

/-- `sleep(10)` in `Board.check_alert`: the sub-interval slept before each
fresh pin read, in seconds (the commented-out production value is 600). -/
def realert_sub : Nat := 10

/-- The `while current_time < end_time` loop of `Board.check_alert`, under the
idealized clock (each sleep advances the clock by exactly `realert_sub`, and
`datetime.now()` after a send returns that advanced clock). Each iteration
consumes one fresh `GPIO.input` read from `pinReads`; a read of 1 increments
the alarm counter and calls `event.alert` (passed as `alertFn`, threading the
delivery outcomes), a read of 0 breaks out of the loop. Returns the final
alarm counter, the send-attempt trace, and the completion flag (`false` when
an inner `event.alert` is still retrying, or when `pinReads` was exhausted
with the window still open). -/
def check_alert_aux (alertFn : List Bool → List SendAttempt × List Bool × Bool) :
    List Nat → Nat → Nat → Nat → List Bool → Nat × List SendAttempt × Bool
  | [], current, endT, counter, _ =>
    if current < endT then (counter, [], false) else (counter, [], true)
  | p :: ps, current, endT, counter, os =>
    if current < endT then
      if p = 1 then
        let res := alertFn os
        if res.2.2 then
          let rest := check_alert_aux alertFn ps (current + realert_sub) endT
            (counter + 1) res.2.1
          (rest.1, res.1 ++ rest.2.1, rest.2.2)
        else (counter + 1, res.1, false)
      else (counter, [], true)
    else (counter, [], true)

/-- `Board.check_alert`: `end_time = current_time + timedelta(0, 60)`, then
the re-alert loop, starting with `alarm_counter = 0`. -/
def Board.check_alert (alertFn : List Bool → List SendAttempt × List Bool × Bool)
    (pinReads : List Nat) (t0 : Nat) (outcomes : List Bool) :
    Nat × List SendAttempt × Bool :=
  check_alert_aux alertFn pinReads t0 (t0 + realert_total) 0 outcomes

/-- `Board.alert`: build an `Event` from the shared `input_status` as it was
when the event thread reads it (`statusAtEvent`), run `Event.alert`, and then
re-read the shared `input_status` (`statusAtCheck` — the monitor thread may
have changed it meanwhile): iff it equals 1, run `check_alert` on the same
event. Returns the whole flow's send-attempt trace, whether `check_alert` was
entered, and the completion flag. -/
def Board.alert (statusAtEvent statusAtCheck : Nat) (t : Timestamp)
    (csv : Option (List CsvRow)) (ip : String) (pinReads : List Nat)
    (t0 : Nat) (outcomes : List Bool) : List SendAttempt × Bool × Bool :=
  let ev : Event := ⟨t, eventStatus statusAtEvent⟩
  let res := Event.alert ev csv ip outcomes
  if res.2.2 then
    if statusAtCheck = 1 then
      let rest := Board.check_alert (Event.alert ev csv ip) pinReads t0 res.2.1
      (res.1 ++ rest.2.1, true, rest.2.2)
    else (res.1, false, true)
  else (res.1, false, false)

/-- Startup section of `Board.monitor` (before the first
`GPIO.wait_for_edge`): read the pin once (`r0`), store it as the input
status, and if it equals 1 initiate one event (whose status is derived from
the stored input status). Returns the stored level and the statuses of the
events initiated before the first edge wait. -/
def monitor_start (r0 : Nat) : Nat × List String :=
  (r0, if r0 = 1 then [eventStatus r0] else [])

/-- One iteration of the `Board.monitor` loop, entered after
`GPIO.wait_for_edge` wakes and the 5 ms debounce sleep has elapsed. Each
`GPIO.input` call consumes the next element of `reads`: the first read is
compared against the stored input status; only when they differ is the pin
read again, the stored status set to that second read, and an event
initiated. (The two reads happen within the same debounced instant.) Returns
the new stored status, the unconsumed reads, and whether an event was
initiated; an exhausted read list leaves the iteration unmodelled. -/
def monitor_iter (stored : Nat) : List Nat → Nat × List Nat × Bool
  | [] => (stored, [], false)
  | r1 :: rest =>
    if stored ≠ r1 then
      match rest with
      | [] => (stored, [], false)
      | r2 :: rest2 => (r2, rest2, true)
    else (stored, rest, false)

/-- The `while True` loop of `Board.monitor`, run for `wakeups` edge
wake-ups against the stream `reads` of pin levels. Returns the final stored
input status and the number of events initiated. -/
def monitor_run (stored : Nat) (reads : List Nat) : Nat → Nat × Nat
  | 0 => (stored, 0)
  | w + 1 =>
    let it := monitor_iter stored reads
    let rest := monitor_run it.1 it.2.1 w
    (rest.1, rest.2 + (if it.2.2 then 1 else 0))

/-- `Board.monitor`: the startup section followed by the wake-up loop.
Returns the statuses of startup events, the final stored status, and the
number of events initiated by the loop. -/
def Board.monitor (r0 : Nat) (reads : List Nat) (wakeups : Nat) :
    List String × Nat × Nat :=
  let s := monitor_start r0
  let run := monitor_run s.1 reads wakeups
  (s.2, run.1, run.2)

/-! ### Helper lemmas -/

lemma handle_email_error_msg (msg : EmailMsg) :
    ∀ (os : List Bool) (fc : Nat), ∀ a ∈ (handle_email_error msg fc os).1,
      a.msg = msg := by
  intro os
  induction os with
  | nil => intro fc a ha; simp [handle_email_error] at ha
  | cons r rs ih =>
    intro fc a ha
    cases r with
    | true =>
      simp [handle_email_error] at ha
      simp [ha]
    | false =>
      simp [handle_email_error] at ha
      rcases ha with ha | ha
      · simp [ha]
      · exact ih (fc + 1) a ha

lemma handle_email_error_success (msg : EmailMsg) :
    ∀ (fails rest : List Bool) (fc : Nat), (∀ x ∈ fails, x = false) →
      (handle_email_error msg fc (fails ++ true :: rest)).1.length
          = fails.length + 1
        ∧ (handle_email_error msg fc (fails ++ true :: rest)).2.1 = rest
        ∧ (handle_email_error msg fc (fails ++ true :: rest)).2.2 = true := by
  intro fails
  induction fails with
  | nil => intro rest fc _; simp [handle_email_error]
  | cons x xs ih =>
    intro rest fc h
    have hx : x = false := h x (by simp)
    subst hx
    have hxs : ∀ y ∈ xs, y = false := fun y hy => h y (by simp [hy])
    have hres := ih rest (fc + 1) hxs
    simp [handle_email_error, hres.1, hres.2.1, hres.2.2]

lemma handle_email_error_allfail (msg : EmailMsg) :
    ∀ (os : List Bool) (fc : Nat), (∀ x ∈ os, x = false) →
      (handle_email_error msg fc os).2.2 = false
        ∧ (handle_email_error msg fc os).1.length = os.length := by
  intro os
  induction os with
  | nil => intro fc _; simp [handle_email_error]
  | cons x xs ih =>
    intro fc h
    have hx : x = false := h x (by simp)
    subst hx
    have hxs : ∀ y ∈ xs, y = false := fun y hy => h y (by simp [hy])
    have hres := ih (fc + 1) hxs
    simp [handle_email_error, hres.1, hres.2]

lemma handle_email_error_logged (msg : EmailMsg) :
    ∀ (os : List Bool) (fc i : Nat) (d : SendAttempt),
      i < (handle_email_error msg fc os).1.length →
      ((handle_email_error msg fc os).1.getD i d).ok = false →
      ((handle_email_error msg fc os).1.getD i d).failureLogged
        = some (fc + i + 1) := by
  intro os
  induction os with
  | nil => intro fc i d hi _; simp [handle_email_error] at hi
  | cons r rs ih =>
    intro fc i d hi hok
    cases r with
    | true =>
      simp [handle_email_error] at hi
      have hi0 : i = 0 := by omega
      subst hi0
      simp [handle_email_error] at hok
    | false =>
      have heq : (handle_email_error msg fc (false :: rs)).1
          = ⟨msg, false, some (fc + 1)⟩ :: (handle_email_error msg (fc + 1) rs).1 := by
        simp [handle_email_error]
      cases i with
      | zero => rw [heq, List.getD_cons_zero]
      | succ j =>
        rw [heq, List.length_cons] at hi
        rw [heq, List.getD_cons_succ] at hok
        rw [heq, List.getD_cons_succ]
        have hj : j < (handle_email_error msg (fc + 1) rs).1.length := by omega
        have hlog := ih (fc + 1) j d hj hok
        rw [hlog]
        congr 1
        omega

lemma handle_error_recipients (ev : Event) (em : String) :
    ∀ (os : List Bool), ∀ a ∈ (handle_error ev em os).1,
      a.msg.recipient = mail_data_it_email := by
  intro os a ha
  cases os with
  | nil => simp [handle_error] at ha
  | cons r rs =>
    cases r with
    | true =>
      simp [handle_error] at ha
      simp [ha]
    | false =>
      simp [handle_error] at ha
      rcases ha with ha | ha
      · simp [ha]
      · have hmsg := handle_email_error_msg
          ⟨mail_data_it_email, em ++ " AND email IT team", itBody ev em⟩ rs 0 a ha
        simp [hmsg]

lemma check_alert_aux_step_high
    (alertFn : List Bool → List SendAttempt × List Bool × Bool)
    (ps : List Nat) (current endT counter : Nat) (os : List Bool)
    (hlt : current < endT) (hok : (alertFn os).2.2 = true) :
    check_alert_aux alertFn (1 :: ps) current endT counter os
      = ((check_alert_aux alertFn ps (current + realert_sub) endT (counter + 1)
            (alertFn os).2.1).1,
         (alertFn os).1 ++ (check_alert_aux alertFn ps (current + realert_sub)
            endT (counter + 1) (alertFn os).2.1).2.1,
         (check_alert_aux alertFn ps (current + realert_sub) endT (counter + 1)
            (alertFn os).2.1).2.2) := by
  simp [check_alert_aux, hlt, hok]

lemma check_alert_aux_step_low
    (alertFn : List Bool → List SendAttempt × List Bool × Bool)
    (p : Nat) (ps : List Nat) (current endT counter : Nat) (os : List Bool)
    (hlt : current < endT) (hp : p ≠ 1) :
    check_alert_aux alertFn (p :: ps) current endT counter os
      = (counter, [], true) := by
  simp [check_alert_aux, hlt, hp]

lemma check_alert_aux_high_run
    (alertFn : List Bool → List SendAttempt × List Bool × Bool)
    (hA : ∀ os, (alertFn os).2.2 = true) :
    ∀ (n : Nat) (reads : List Nat) (current counter : Nat) (os : List Bool),
      (∀ r ∈ reads, r = 1) → n ≤ reads.length →
      (check_alert_aux alertFn reads current (current + realert_sub * n)
          counter os).1 = counter + n
        ∧ (check_alert_aux alertFn reads current (current + realert_sub * n)
            counter os).2.2 = true := by
  intro n
  induction n with
  | zero =>
    intro reads current counter os _ _
    cases reads <;> simp [check_alert_aux]
  | succ n ih =>
    intro reads current counter os h1 h2
    cases reads with
    | nil => simp at h2
    | cons p ps =>
      have hp : p = 1 := h1 p (by simp)
      subst hp
      have h10 : realert_sub = 10 := rfl
      have hok := hA os
      have hend : current + realert_sub * (n + 1)
          = current + realert_sub + realert_sub * n := by ring
      have hps : ∀ r ∈ ps, r = 1 := fun r hr => h1 r (by simp [hr])
      have hlen : n ≤ ps.length := by simp at h2; omega
      have ihres := ih ps (current + realert_sub) (counter + 1) (alertFn os).2.1
        hps hlen
      have hlt : current < current + realert_sub + realert_sub * n := by omega
      rw [hend, check_alert_aux_step_high alertFn ps current
          (current + realert_sub + realert_sub * n) counter os hlt hok,
        show counter + (n + 1) = counter + 1 + n from by omega]
      exact ⟨by simpa using ihres.1, by simpa using ihres.2⟩

lemma check_alert_aux_low_run
    (alertFn : List Bool → List SendAttempt × List Bool × Bool)
    (hA : ∀ os, (alertFn os).2.2 = true) :
    ∀ (j n : Nat), j < n →
      ∀ (rest : List Nat) (current counter : Nat) (os : List Bool),
      (check_alert_aux alertFn (List.replicate j 1 ++ 0 :: rest) current
          (current + realert_sub * n) counter os).1 = counter + j
        ∧ (check_alert_aux alertFn (List.replicate j 1 ++ 0 :: rest) current
            (current + realert_sub * n) counter os).2.2 = true := by
  intro j
  induction j with
  | zero =>
    intro n hn rest current counter os
    have h10 : realert_sub = 10 := rfl
    have hlt : current < current + realert_sub * n := by
      have : realert_sub * n = 10 * n := by rw [h10]
      omega
    rw [List.replicate_zero, List.nil_append,
      check_alert_aux_step_low alertFn 0 rest current
        (current + realert_sub * n) counter os hlt (by decide)]
    simp
  | succ j ih =>
    intro n hn rest current counter os
    cases n with
    | zero => omega
    | succ m =>
      have hj : j < m := by omega
      have h10 : realert_sub = 10 := rfl
      have hok := hA os
      have hend : current + realert_sub * (m + 1)
          = current + realert_sub + realert_sub * m := by ring
      have hlt : current < current + realert_sub + realert_sub * m := by omega
      have ihres := ih m hj rest (current + realert_sub) (counter + 1)
        (alertFn os).2.1
      rw [List.replicate_succ, List.cons_append, hend,
        check_alert_aux_step_high alertFn (List.replicate j 1 ++ 0 :: rest)
          current (current + realert_sub + realert_sub * m) counter os hlt hok,
        show counter + (j + 1) = counter + 1 + j from by omega]
      exact ⟨by simpa using ihres.1, by simpa using ihres.2⟩

lemma monitor_iter_bounce (stored : Nat) (reads : List Nat)
    (h : ∀ r ∈ reads, r = stored) :
    monitor_iter stored reads = (stored, reads.tail, false) := by
  cases reads with
  | nil => rfl
  | cons r rs =>
    have hr : r = stored := h r (by simp)
    simp [monitor_iter, hr]

lemma monitor_run_bounce (stored : Nat) :
    ∀ (w : Nat) (reads : List Nat), (∀ r ∈ reads, r = stored) →
      (monitor_run stored reads w).2 = 0 := by
  intro w
  induction w with
  | zero => intro reads _; rfl
  | succ w ih =>
    intro reads h
    have hit := monitor_iter_bounce stored reads h
    have htail : ∀ r ∈ reads.tail, r = stored := by
      intro r hr
      exact h r (List.mem_of_mem_tail hr)
    simp [monitor_run, hit, ih reads.tail htail]

lemma parse_csv_no_match (ip : String) (d0 : Option CsvRow) :
    ∀ rows : List CsvRow, (∀ x ∈ rows, x.ip ≠ ip) →
      FreezerData.parse_csv ip d0 rows = d0 := by
  intro rows
  induction rows with
  | nil => intro _; rfl
  | cons x xs ih =>
    intro h
    have hx : x.ip ≠ ip := h x (by simp)
    simp [FreezerData.parse_csv, hx, ih (fun y hy => h y (by simp [hy]))]

/-! ### Claim theorems -/

/-- C1 (counterexample): a flow whose lookup failed — so no primary
notification attempt occurred, let alone succeeded — still enters the
re-alert cycle, because `Board.alert` only consults the shared input status:
here the trace is a single IT-directed attempt, yet the cycle is entered. -/
theorem C1_counterexample :
    lookup (some []) "a" = none
    ∧ (Board.alert 1 1 ⟨"d", "t", "dt"⟩ (some []) "a" [0] 0 [true]).2.1 = true
    ∧ (Board.alert 1 1 ⟨"d", "t", "dt"⟩ (some []) "a" [0] 0 [true]).1.length = 1
    ∧ ((Board.alert 1 1 ⟨"d", "t", "dt"⟩ (some []) "a" [0] 0 [true]).1.getD 0
        ⟨⟨"", "", ""⟩, false, none⟩).msg.recipient = mail_data_it_email := by
  refine ⟨rfl, rfl, rfl, rfl⟩

/-- C1 (amended): the re-alert cycle is entered iff the shared input status
equals 1 at the moment `Event.alert` returns — regardless of whether the
primary notification succeeded, failed, or was skipped because the lookup
failed. -/
theorem C1_amended_cycle_entry (statusAtEvent : Nat) (t : Timestamp)
    (csv : Option (List CsvRow)) (ip : String) (pinReads : List Nat)
    (t0 : Nat) (os : List Bool)
    (h : (Event.alert ⟨t, eventStatus statusAtEvent⟩ csv ip os).2.2 = true) :
    (Board.alert statusAtEvent 1 t csv ip pinReads t0 os).2.1 = true
    ∧ ∀ sC : Nat, sC ≠ 1 →
        (Board.alert statusAtEvent sC t csv ip pinReads t0 os).2.1 = false := by
  constructor
  · simp [Board.alert, h]
  · intro sC hsc
    simp [Board.alert, h, hsc]

/-- C1 (witness for the amended theorem): a lookup-failed ALARM flow with
shared status 1 enters the cycle; with shared status 0 it does not. -/
theorem C1_amended_witness :
    (Board.alert 1 1 ⟨"d", "t", "dt"⟩ (some []) "b" [0] 0 [true]).2.1 = true
    ∧ (Board.alert 1 0 ⟨"d", "t", "dt"⟩ (some []) "b" [0] 0 [true]).2.1 = false := by
  refine ⟨(C1_amended_cycle_entry 1 ⟨"d", "t", "dt"⟩ (some []) "b" [0] 0 [true] rfl).1,
    (C1_amended_cycle_entry 1 ⟨"d", "t", "dt"⟩ (some []) "b" [0] 0 [true] rfl).2
      0 (by decide)⟩

/-- C2: in `Board.check_alert` under the idealized clock, if every fresh pin
read is HIGH (and each inner `event.alert` returns) the number of re-alert
sends equals total_duration / sub_interval (6 with the deployed constants
60 s / 10 s); if the fresh read at iteration j is LOW, the cycle terminates
right there, with exactly the j earlier sends and no error. -/
theorem C2_realert_counts
    (alertFn : List Bool → List SendAttempt × List Bool × Bool)
    (hA : ∀ os, (alertFn os).2.2 = true) (t0 : Nat) (os : List Bool) :
    (∀ reads : List Nat, (∀ r ∈ reads, r = 1) →
        realert_total / realert_sub ≤ reads.length →
      (Board.check_alert alertFn reads t0 os).1 = realert_total / realert_sub
        ∧ (Board.check_alert alertFn reads t0 os).2.2 = true) ∧
    (∀ (j : Nat) (rest : List Nat), j < realert_total / realert_sub →
      (Board.check_alert alertFn (List.replicate j 1 ++ 0 :: rest) t0 os).1 = j
        ∧ (Board.check_alert alertFn
            (List.replicate j 1 ++ 0 :: rest) t0 os).2.2 = true) := by
  have hdiv : realert_total / realert_sub = 6 := rfl
  have htot : realert_total = realert_sub * 6 := rfl
  constructor
  · intro reads h1 h2
    rw [hdiv] at h2
    have hrun := check_alert_aux_high_run alertFn hA 6 reads t0 0 os h1 h2
    unfold Board.check_alert
    rw [hdiv, htot]
    exact ⟨by simpa using hrun.1, hrun.2⟩
  · intro j rest hj
    rw [hdiv] at hj
    have hrun := check_alert_aux_low_run alertFn hA j 6 hj rest t0 0 os
    unfold Board.check_alert
    rw [htot]
    exact ⟨by simpa using hrun.1, hrun.2⟩

/-- C2 (witness): with the constant-success alert stub, six HIGH reads give
six sends; three HIGH reads then a LOW read give three sends. -/
theorem C2_witness :
    (Board.check_alert (fun os => ([], os, true)) [1, 1, 1, 1, 1, 1] 0 []).1
        = realert_total / realert_sub
    ∧ (Board.check_alert (fun os => ([], os, true))
        (List.replicate 3 1 ++ 0 :: []) 0 []).1 = 3 := by
  refine ⟨((C2_realert_counts (fun os => ([], os, true)) (fun _ => rfl) 0 []).1
      [1, 1, 1, 1, 1, 1] (by decide) (by decide)).1,
    ((C2_realert_counts (fun os => ([], os, true)) (fun _ => rfl) 0 []).2
      3 [] (by decide)).1⟩

/-- C3: every attempt of the RETRY_IT_FOREVER loop sends the identical
message; the subject was fixed before the loop as the failure description
with " AND email IT team" appended; the loop exits exactly on the first
successful delivery (with all supplied outcomes failures it is still
running, one attempt per outcome); and the n-th failed attempt logs failure
counter n. -/
theorem C3_retry_fixed_message (msg : EmailMsg) :
    (∀ (os : List Bool) (fc : Nat), ∀ a ∈ (handle_email_error msg fc os).1,
      a.msg = msg) ∧
    (∀ (fails rest : List Bool), (∀ x ∈ fails, x = false) →
      (handle_email_error msg 0 (fails ++ true :: rest)).1.length
          = fails.length + 1
        ∧ (handle_email_error msg 0 (fails ++ true :: rest)).2.2 = true) ∧
    (∀ os : List Bool, (∀ x ∈ os, x = false) →
      (handle_email_error msg 0 os).2.2 = false
        ∧ (handle_email_error msg 0 os).1.length = os.length) ∧
    (∀ (os : List Bool) (i : Nat) (d : SendAttempt),
        i < (handle_email_error msg 0 os).1.length →
        ((handle_email_error msg 0 os).1.getD i d).ok = false →
      ((handle_email_error msg 0 os).1.getD i d).failureLogged
        = some (i + 1)) ∧
    (∀ (ev : Event) (em : String) (rs : List Bool),
      ((handle_error ev em (false :: rs)).1).tail
        = (handle_email_error
            ⟨mail_data_it_email, em ++ " AND email IT team", itBody ev em⟩
            0 rs).1) := by
  refine ⟨handle_email_error_msg msg, ?_, ?_, ?_, ?_⟩
  · intro fails rest h
    exact ⟨(handle_email_error_success msg fails rest 0 h).1,
      (handle_email_error_success msg fails rest 0 h).2.2⟩
  · intro os h
    exact handle_email_error_allfail msg os 0 h
  · intro os i d hi hok
    have hlog := handle_email_error_logged msg os 0 i d hi hok
    simpa using hlog
  · intro ev em rs
    rfl

/-- C3 (witness): two failures then a success give three attempts, and the
second (failed) attempt logs failure counter 2. -/
theorem C3_witness :
    (handle_email_error ⟨"r", "s", "b"⟩ 0 [false, false, true]).1.length = 3
    ∧ ((handle_email_error ⟨"r", "s", "b"⟩ 0 [false, false, true]).1.getD 1
        ⟨⟨"", "", ""⟩, true, none⟩).failureLogged = some 2 := by
  constructor
  · have hlen := ((C3_retry_fixed_message ⟨"r", "s", "b"⟩).2.1
      [false, false] [] (by decide)).1
    simpa using hlen
  · exact (C3_retry_fixed_message ⟨"r", "s", "b"⟩).2.2.2.1 [false, false, true]
      1 ⟨⟨"", "", ""⟩, true, none⟩ (by decide) (by decide)

/-- C4 (counterexample): with ALARM status, primary failure then IT success,
and the shared input status still 1 with the pin HIGH at the first re-alert
check, the flow performs a third delivery attempt — not exactly two — even
though it does reach completion. -/
theorem C4_counterexample :
    ((Board.alert 1 1 ⟨"d", "t", "dt"⟩ (some [⟨"ip1", "loc", "x@y.edu"⟩])
        "ip1" [1, 0] 0 [false, true, true]).1.length = 3)
    ∧ ((Board.alert 1 1 ⟨"d", "t", "dt"⟩ (some [⟨"ip1", "loc", "x@y.edu"⟩])
        "ip1" [1, 0] 0 [false, true, true]).1.getD 0
          ⟨⟨"", "", ""⟩, true, none⟩).ok = false
    ∧ ((Board.alert 1 1 ⟨"d", "t", "dt"⟩ (some [⟨"ip1", "loc", "x@y.edu"⟩])
        "ip1" [1, 0] 0 [false, true, true]).1.getD 0
          ⟨⟨"", "", ""⟩, true, none⟩).msg.recipient = "x@y.edu"
    ∧ ((Board.alert 1 1 ⟨"d", "t", "dt"⟩ (some [⟨"ip1", "loc", "x@y.edu"⟩])
        "ip1" [1, 0] 0 [false, true, true]).1.getD 1
          ⟨⟨"", "", ""⟩, false, none⟩).ok = true
    ∧ ((Board.alert 1 1 ⟨"d", "t", "dt"⟩ (some [⟨"ip1", "loc", "x@y.edu"⟩])
        "ip1" [1, 0] 0 [false, true, true]).1.getD 1
          ⟨⟨"", "", ""⟩, false, none⟩).msg.recipient = mail_data_it_email
    ∧ (Board.alert 1 1 ⟨"d", "t", "dt"⟩ (some [⟨"ip1", "loc", "x@y.edu"⟩])
        "ip1" [1, 0] 0 [false, true, true]).2.2 = true := by
  refine ⟨rfl, rfl, rfl, rfl, rfl, rfl⟩

/-- C4 (amended): with a successful lookup, a failed primary attempt followed
by a successful IT attempt give exactly two delivery attempts in the
`Event.alert` pass, which completes; the whole flow consists of exactly those
two attempts and reaches DONE whenever the shared input status is not 1 when
the pass returns (when it is 1 the flow continues into the re-alert cycle,
which can attempt further deliveries). -/
theorem C4_two_attempts (statusAtEvent : Nat) (t : Timestamp)
    (csv : Option (List CsvRow)) (ip : String) (row : CsvRow)
    (hlook : lookup csv ip = some row) (rest : List Bool) :
    (Event.alert ⟨t, eventStatus statusAtEvent⟩ csv ip
        (false :: true :: rest)).1.length = 2
    ∧ (Event.alert ⟨t, eventStatus statusAtEvent⟩ csv ip
        (false :: true :: rest)).2.2 = true
    ∧ ∀ (sC : Nat) (pinReads : List Nat) (t0 : Nat), sC ≠ 1 →
        (Board.alert statusAtEvent sC t csv ip pinReads t0
            (false :: true :: rest)).1.length = 2
        ∧ (Board.alert statusAtEvent sC t csv ip pinReads t0
            (false :: true :: rest)).2.2 = true := by
  have halert : Event.alert ⟨t, eventStatus statusAtEvent⟩ csv ip
        (false :: true :: rest)
      = notify_recipients ⟨t, eventStatus statusAtEvent⟩ row
          (false :: true :: rest) := by
    unfold Event.alert
    rw [hlook]
  refine ⟨?_, ?_, ?_⟩
  · rw [halert]
    simp [notify_recipients, handle_error]
  · rw [halert]
    simp [notify_recipients, handle_error]
  · intro sC pinReads t0 hsc
    constructor
    · simp [Board.alert, halert, notify_recipients, handle_error, hsc]
    · simp [Board.alert, halert, notify_recipients, handle_error, hsc]

/-- C4 (witness): concrete primary-fail / IT-success flow with the shared
status 0 at the check: two attempts in the pass and in the whole flow. -/
theorem C4_witness :
    (Event.alert ⟨⟨"d", "t", "dt"⟩, eventStatus 1⟩
        (some [⟨"ip1", "loc", "x@y.edu"⟩]) "ip1" [false, true]).1.length = 2
    ∧ (Board.alert 1 0 ⟨"d", "t", "dt"⟩ (some [⟨"ip1", "loc", "x@y.edu"⟩])
        "ip1" [] 0 [false, true]).1.length = 2 := by
  refine ⟨(C4_two_attempts 1 ⟨"d", "t", "dt"⟩ (some [⟨"ip1", "loc", "x@y.edu"⟩])
      "ip1" ⟨"ip1", "loc", "x@y.edu"⟩ rfl []).1,
    ((C4_two_attempts 1 ⟨"d", "t", "dt"⟩ (some [⟨"ip1", "loc", "x@y.edu"⟩])
      "ip1" ⟨"ip1", "loc", "x@y.edu"⟩ rfl []).2.2 0 [] 0 (by decide)).1⟩

/-- C5: when the lookup fails, no primary delivery attempt occurs — every
attempt of the `Event.alert` pass is directed to the IT recipient — exactly
one IT message is sent when the first (IT) attempt succeeds, and when it
fails the remaining attempts are the unbounded retry of the one fixed IT
message. -/
theorem C5_lookup_failure (ev : Event) (csv : Option (List CsvRow))
    (ip : String) (h : lookup csv ip = none) :
    (∀ os : List Bool, ∀ a ∈ (Event.alert ev csv ip os).1,
      a.msg.recipient = mail_data_it_email) ∧
    (∀ rest : List Bool, (Event.alert ev csv ip (true :: rest)).1.length = 1) ∧
    (∀ rest : List Bool, ((Event.alert ev csv ip (false :: rest)).1).tail
      = (handle_email_error
          ⟨mail_data_it_email, "Failed to parse CSV file" ++ " AND email IT team",
            itBody ev "Failed to parse CSV file"⟩ 0 rest).1) := by
  have halert : ∀ os, Event.alert ev csv ip os
      = handle_error ev "Failed to parse CSV file" os := by
    intro os
    unfold Event.alert
    rw [h]
  refine ⟨?_, ?_, ?_⟩
  · intro os a ha
    rw [halert os] at ha
    exact handle_error_recipients ev "Failed to parse CSV file" os a ha
  · intro rest
    rw [halert]
    simp [handle_error]
  · intro rest
    rw [halert]
    rfl

/-- C5 (witness): with an empty CSV the lookup fails; a first-success outcome
gives a single (IT) attempt, and a first-failure outcome continues with the
retry of the fixed IT message. -/
theorem C5_witness :
    (Event.alert ⟨⟨"d", "t", "dt"⟩, "ALARM"⟩ (some []) "a" [true]).1.length = 1
    ∧ ((Event.alert ⟨⟨"d", "t", "dt"⟩, "ALARM"⟩ (some []) "a" [false, true]).1).tail
      = (handle_email_error
          ⟨mail_data_it_email, "Failed to parse CSV file" ++ " AND email IT team",
            itBody ⟨⟨"d", "t", "dt"⟩, "ALARM"⟩ "Failed to parse CSV file"⟩
          0 [true]).1 := by
  refine ⟨(C5_lookup_failure ⟨⟨"d", "t", "dt"⟩, "ALARM"⟩ (some []) "a" rfl).2.1 [],
    (C5_lookup_failure ⟨⟨"d", "t", "dt"⟩, "ALARM"⟩ (some []) "a" rfl).2.2 [true]⟩

/-- C6: in a `Board.monitor` iteration, after waking and sleeping the
debounce interval an event is initiated iff the post-debounce re-read
differs from the stored input status, in which case the stored status is
updated to the re-read level; consequently a run whose every post-debounce
re-read equals the stored level initiates zero events. -/
theorem C6_debounce (stored : Nat) :
    (∀ (r1 r2 : Nat) (rest : List Nat),
      ((monitor_iter stored (r1 :: r2 :: rest)).2.2 = true ↔ stored ≠ r1)) ∧
    (∀ (r1 : Nat) (rest : List Nat), stored ≠ r1 →
      (monitor_iter stored (r1 :: r1 :: rest)).1 = r1) ∧
    (∀ (reads : List Nat) (w : Nat), (∀ r ∈ reads, r = stored) →
      (monitor_run stored reads w).2 = 0) := by
  refine ⟨?_, ?_, ?_⟩
  · intro r1 r2 rest
    by_cases hr : stored = r1
    · simp [monitor_iter, hr]
    · simp [monitor_iter, hr]
  · intro r1 rest h
    simp [monitor_iter, h]
  · intro reads w h
    exact monitor_run_bounce stored w reads h

/-- C6 (witness): with stored level 0, a re-read of 1 initiates an event and
stores 1; three wake-ups whose re-reads all equal the stored level initiate
zero events. -/
theorem C6_witness :
    ((monitor_iter 0 [1, 1]).2.2 = true ↔ (0 : Nat) ≠ 1)
    ∧ (monitor_iter 0 [1, 1]).1 = 1
    ∧ (monitor_run 0 [0, 0, 0] 3).2 = 0 := by
  refine ⟨(C6_debounce 0).1 1 1 [], (C6_debounce 0).2.1 1 [] (by decide),
    (C6_debounce 0).2.2 [0, 0, 0] 3 (by decide)⟩

/-- C7: at `Board.monitor` startup, a first synchronous read of 1 initiates
exactly one event, with status ALARM, before the first edge wait; a first
read of 0 initiates none. -/
theorem C7_startup_alarm :
    (monitor_start 1).2 = ["ALARM"] ∧ (monitor_start 0).2 = ([] : List String) := by
  exact ⟨rfl, rfl⟩

/-- C8: the interval slept between consecutive IT-retry attempts is
`sleep(5)` — five seconds — not the approximately five minutes (300 seconds)
stated by the claim and by the code's own docstring, comment and log
message. -/
theorem C8_retry_interval_seconds :
    it_retry_interval = 5 ∧ ¬ it_retry_interval = 300 := by
  exact ⟨rfl, by decide⟩

/-- C9: `FreezerData.parse_csv` sets the data attribute to the first row
whose "IP" column equals the given ip (later matching rows are ignored);
with no matching row it leaves the data attribute unchanged, so a freshly
constructed `FreezerData` keeps the empty dictionary and `Event.alert`
takes the lookup-failure branch. -/
theorem C9_parse_first_match :
    (∀ (ip : String) (d0 : Option CsvRow) (pre : List CsvRow) (r : CsvRow)
        (post : List CsvRow), r.ip = ip → (∀ x ∈ pre, x.ip ≠ ip) →
      FreezerData.parse_csv ip d0 (pre ++ r :: post) = some r) ∧
    (∀ (ip : String) (d0 : Option CsvRow) (rows : List CsvRow),
        (∀ x ∈ rows, x.ip ≠ ip) → FreezerData.parse_csv ip d0 rows = d0) ∧
    (∀ (ev : Event) (ip : String) (rows : List CsvRow) (os : List Bool),
        (∀ x ∈ rows, x.ip ≠ ip) →
      Event.alert ev (some rows) ip os
        = handle_error ev "Failed to parse CSV file" os) := by
  refine ⟨?_, fun ip d0 rows h => parse_csv_no_match ip d0 rows h, ?_⟩
  · intro ip d0 pre
    induction pre with
    | nil =>
      intro r post hr _
      simp [FreezerData.parse_csv, hr]
    | cons x xs ih =>
      intro r post hr hpre
      have hx : x.ip ≠ ip := hpre x (by simp)
      simp [FreezerData.parse_csv, hx,
        ih r post hr (fun y hy => hpre y (by simp [hy]))]
  · intro ev ip rows os h
    have hl : lookup (some rows) ip = none := by
      simp [lookup, parse_csv_no_match ip none rows h]
    unfold Event.alert
    rw [hl]

/-- C9 (witness): the first matching row wins over a later match; a
non-matching list leaves the data unchanged; and an `Event.alert` on a
non-matching list follows the lookup-failure branch. -/
theorem C9_witness :
    FreezerData.parse_csv "a" none
        ([⟨"b", "l", "e"⟩] ++ ⟨"a", "l2", "e2"⟩ :: [⟨"a", "l3", "e3"⟩])
      = some ⟨"a", "l2", "e2"⟩
    ∧ FreezerData.parse_csv "a" (some ⟨"z", "z", "z"⟩) [⟨"b", "l", "e"⟩]
      = some ⟨"z", "z", "z"⟩
    ∧ Event.alert ⟨⟨"d", "t", "dt"⟩, "ALARM"⟩ (some [⟨"b", "l", "e"⟩]) "a" [true]
      = handle_error ⟨⟨"d", "t", "dt"⟩, "ALARM"⟩ "Failed to parse CSV file"
          [true] := by
  refine ⟨C9_parse_first_match.1 "a" none [⟨"b", "l", "e"⟩] ⟨"a", "l2", "e2"⟩
      [⟨"a", "l3", "e3"⟩] rfl (by decide),
    C9_parse_first_match.2.1 "a" (some ⟨"z", "z", "z"⟩) [⟨"b", "l", "e"⟩]
      (by decide),
    C9_parse_first_match.2.2 ⟨⟨"d", "t", "dt"⟩, "ALARM"⟩ "a" [⟨"b", "l", "e"⟩]
      [true] (by decide)⟩

/-- C10: `Board.alert` decides whether to start the re-alert cycle from the
shared input status at the moment `Event.alert` returns, not from the status
stored in the Event it created: the cycle starts iff that shared status
equals 1, whatever the event's own status. -/
theorem C10_shared_status_decides (statusAtEvent statusAtCheck : Nat)
    (t : Timestamp) (csv : Option (List CsvRow)) (ip : String)
    (pinReads : List Nat) (t0 : Nat) (os : List Bool)
    (h : (Event.alert ⟨t, eventStatus statusAtEvent⟩ csv ip os).2.2 = true) :
    (Board.alert statusAtEvent statusAtCheck t csv ip pinReads t0 os).2.1 = true
      ↔ statusAtCheck = 1 := by
  by_cases hc : statusAtCheck = 1
  · subst hc
    simp [Board.alert, h]
  · simp [Board.alert, h, hc]

/-- C10 (witness): an ALARM event with shared status 0 starts no cycle; a
RECOVERY event with shared status 1 starts one. -/
theorem C10_witness :
    (Board.alert 1 0 ⟨"d", "t", "dt"⟩ (some []) "a" [] 0 [true]).2.1 = false
    ∧ (Board.alert 0 1 ⟨"d", "t", "dt"⟩ (some []) "a" [0] 0 [true]).2.1 = true := by
  constructor
  · have hiff := C10_shared_status_decides 1 0 ⟨"d", "t", "dt"⟩ (some []) "a"
      [] 0 [true] rfl
    cases hb : (Board.alert 1 0 ⟨"d", "t", "dt"⟩ (some []) "a" [] 0 [true]).2.1
    · rfl
    · exact absurd (hiff.mp hb) (by decide)
  · exact (C10_shared_status_decides 0 1 ⟨"d", "t", "dt"⟩ (some []) "a"
      [0] 0 [true] rfl).mpr rfl

end Minus80
